import Mathlib

/-!
Verification of the asset-deletion matching pipeline of the nexus3-cli
repository (`nexuscli.api.repository.collection.RepositoryCollection` and the
CLI deletion workflow in `nexuscli.cli.root_commands` /
`nexuscli.cli.subcommand_repository`).

The Python code is shallowly embedded: JSON values become an inductive type,
`json.loads` becomes a fuel-based recursive-descent JSON reader, Python
exceptions become an explicit error type threaded through `Except`, and the
stateful CLI workflow becomes a pure function that records the calls it makes,
the confirmation prompt, the messages printed and the final outcome.
-/

set_option autoImplicit false

/-- A JSON value, as produced by the Python `json.loads` used in
`collection.py`.  Python dicts are ordered key-value lists with unique keys;
numbers are modelled as integers, since the deletion protocol carries no
numeric (and in particular no floating-point) fields. -/
inductive Json where
  | null
  | bool (b : Bool)
  | num (n : Int)
  | str (s : String)
  | arr (elems : List Json)
  | obj (fields : List (String × Json))

/-- Python `x == None` for a decoded JSON value. -/
def Json.isNull : Json → Bool
  | .null => true
  | _ => false

/-! ### A model of `json.loads`

The reader below follows the grammar accepted by Python `json.loads` on the
inputs this protocol can produce: objects, arrays, strings with escapes,
`true` / `false` / `null`, and integer literals.  Recursion is bounded by a
fuel argument; the top level supplies more fuel than any input can consume. -/

def isWsChar (c : Char) : Bool :=
  c = ' ' || c = '\t' || c = '\n' || c = '\r'

def skipWs : List Char → List Char
  | [] => []
  | c :: cs => if isWsChar c then skipWs cs else c :: cs

def isDigitChar (c : Char) : Bool :=
  '0'.toNat ≤ c.toNat && c.toNat ≤ '9'.toNat

def hexVal (c : Char) : Option Nat :=
  if '0'.toNat ≤ c.toNat ∧ c.toNat ≤ '9'.toNat then some (c.toNat - '0'.toNat)
  else if 'a'.toNat ≤ c.toNat ∧ c.toNat ≤ 'f'.toNat then some (c.toNat - 'a'.toNat + 10)
  else if 'A'.toNat ≤ c.toNat ∧ c.toNat ≤ 'F'.toNat then some (c.toNat - 'A'.toNat + 10)
  else none

/-- Single-character escapes accepted inside JSON strings. -/
def escChar (e : Char) : Option Char :=
  if e = '"' then some '"'
  else if e = '\\' then some '\\'
  else if e = '/' then some '/'
  else if e = 'b' then some '\x08'
  else if e = 'f' then some '\x0c'
  else if e = 'n' then some '\n'
  else if e = 'r' then some '\r'
  else if e = 't' then some '\t'
  else none

/-- Reads the body of a JSON string after the opening quote; returns the
decoded characters and the remaining input after the closing quote. -/
def parseStringBody : Nat → List Char → Option (List Char × List Char)
  | 0, _ => none
  | _, [] => none
  | fuel + 1, c :: cs =>
    if c = '"' then some ([], cs)
    else if c = '\\' then
      match cs with
      | 'u' :: a :: b :: c2 :: d :: cs2 =>
        match hexVal a, hexVal b, hexVal c2, hexVal d with
        | some ha, some hb, some hc, some hd =>
          match parseStringBody fuel cs2 with
          | some (body, rest) =>
            some (Char.ofNat (((ha * 16 + hb) * 16 + hc) * 16 + hd) :: body, rest)
          | none => none
        | _, _, _, _ => none
      | e :: cs2 =>
        match escChar e with
        | some ec =>
          match parseStringBody fuel cs2 with
          | some (body, rest) => some (ec :: body, rest)
          | none => none
        | none => none
      | [] => none
    else
      match parseStringBody fuel cs with
      | some (body, rest) => some (c :: body, rest)
      | none => none

def digitsToNat (acc : Nat) : List Char → Nat × List Char
  | [] => (acc, [])
  | c :: cs =>
    if isDigitChar c then digitsToNat (acc * 10 + (c.toNat - '0'.toNat)) cs
    else (acc, c :: cs)

/-- Reads an integer literal (optional minus sign followed by digits). -/
def parseIntCore : List Char → Option (Int × List Char)
  | [] => none
  | '-' :: rest =>
    match rest with
    | c :: _ =>
      if isDigitChar c then
        let p := digitsToNat 0 rest
        some (-(p.1 : Int), p.2)
      else none
    | [] => none
  | c :: rest =>
    if isDigitChar c then
      let p := digitsToNat 0 (c :: rest)
      some ((p.1 : Int), p.2)
    else none

/-- Matches a fixed literal such as `rue` (after the leading `t`). -/
def matchLit : List Char → List Char → Option (List Char)
  | [], rest => some rest
  | _ :: _, [] => none
  | l :: ls, c :: cs => if c = l then matchLit ls cs else none

/-- One step of Python dict construction: a later duplicate key overwrites the
value stored at the position of its first occurrence. -/
def insertLastWins (fields : List (String × Json)) (k : String) (v : Json) :
    List (String × Json) :=
  if (fields.lookup k).isSome then
    fields.map (fun p => if p.1 = k then (k, v) else p)
  else fields ++ [(k, v)]

/-- Builds a Python dict from the parsed member list (last duplicate wins). -/
def pyDict (pairs : List (String × Json)) : List (String × Json) :=
  pairs.foldl (fun acc p => insertLastWins acc p.1 p.2) []

mutual

/-- Reads one JSON value. -/
def parseValue : Nat → List Char → Option (Json × List Char)
  | 0, _ => none
  | fuel + 1, cs =>
    match skipWs cs with
    | [] => none
    | c :: rest =>
      if c = '{' then
        match skipWs rest with
        | '}' :: rest2 => some (Json.obj [], rest2)
        | rest2 =>
          match parseMembersRest fuel rest2 with
          | some (pairs, rest3) => some (Json.obj (pyDict pairs), rest3)
          | none => none
      else if c = '[' then
        match skipWs rest with
        | ']' :: rest2 => some (Json.arr [], rest2)
        | rest2 =>
          match parseElemsRest fuel rest2 with
          | some (elems, rest3) => some (Json.arr elems, rest3)
          | none => none
      else if c = '"' then
        match parseStringBody (rest.length + 1) rest with
        | some (body, rest2) => some (Json.str (String.mk body), rest2)
        | none => none
      else if c = 't' then
        match matchLit ['r', 'u', 'e'] rest with
        | some rest2 => some (Json.bool true, rest2)
        | none => none
      else if c = 'f' then
        match matchLit ['a', 'l', 's', 'e'] rest with
        | some rest2 => some (Json.bool false, rest2)
        | none => none
      else if c = 'n' then
        match matchLit ['u', 'l', 'l'] rest with
        | some rest2 => some (Json.null, rest2)
        | none => none
      else
        match parseIntCore (c :: rest) with
        | some (n, rest2) => some (Json.num n, rest2)
        | none => none

/-- Reads the members of a non-empty JSON object, in source order. -/
def parseMembersRest : Nat → List Char → Option (List (String × Json) × List Char)
  | 0, _ => none
  | fuel + 1, cs =>
    match skipWs cs with
    | '"' :: rest =>
      match parseStringBody (rest.length + 1) rest with
      | some (keyChars, rest2) =>
        match skipWs rest2 with
        | ':' :: rest3 =>
          match parseValue fuel rest3 with
          | some (v, rest4) =>
            match skipWs rest4 with
            | ',' :: rest5 =>
              match parseMembersRest fuel rest5 with
              | some (pairs, rest6) => some ((String.mk keyChars, v) :: pairs, rest6)
              | none => none
            | '}' :: rest5 => some ([(String.mk keyChars, v)], rest5)
            | _ => none
          | none => none
        | _ => none
      | none => none
    | _ => none

/-- Reads the elements of a non-empty JSON array, in source order. -/
def parseElemsRest : Nat → List Char → Option (List Json × List Char)
  | 0, _ => none
  | fuel + 1, cs =>
    match parseValue fuel cs with
    | some (v, rest) =>
      match skipWs rest with
      | ',' :: rest2 =>
        match parseElemsRest fuel rest2 with
        | some (elems, rest3) => some (v :: elems, rest3)
        | none => none
      | ']' :: rest2 => some ([v], rest2)
      | _ => none
    | none => none

end

/-- Model of Python `json.loads`: decode the whole string as one JSON value,
rejecting trailing garbage.  `none` corresponds to `json.JSONDecodeError`. -/
def json_loads (s : String) : Option Json :=
  match parseValue (s.data.length + 1) s.data with
  | some (v, rest) => if (skipWs rest).isEmpty then some v else none
  | none => none

/-! ### Python-level primitives used by `delete_assets`

`RepositoryCollection.delete_assets` (collection.py, lines 150-188) treats the
decoded inner JSON as a Python object: `in` membership tests, subscripting and
`== False` / `== None` comparisons.  These are modelled below, including the
Python exceptions they can raise. -/

/-- The exceptions `delete_assets` can surface.  `apiError` is
`nexuscli.exception.NexusClientAPIError` (raised both for malformed responses,
carrying the raw outer response, and for explicit failures, carrying the
server message); the others are the built-in Python exceptions `KeyError`,
`TypeError` and `json.JSONDecodeError`. -/
inductive PyError where
  | apiError (payload : Json)
  | keyError (key : String)
  | typeError
  | jsonDecodeError

/-- Whether the first character list is a prefix of the second. -/
def startsWithChars : List Char → List Char → Bool
  | [], _ => true
  | _ :: _, [] => false
  | n :: ns, h :: hs => if n = h then startsWithChars ns hs else false

/-- Whether the first character list occurs contiguously in the second. -/
def containsChars (needle : List Char) : List Char → Bool
  | [] => needle.isEmpty
  | c :: cs => startsWithChars needle (c :: cs) || containsChars needle cs

/-- Python `needle in x` for a decoded JSON value `x`: key membership for
dicts, element equality for lists, substring test for strings, `TypeError`
otherwise. -/
def pyContains (needle : String) : Json → Except PyError Bool
  | .obj fields => .ok (fields.lookup needle).isSome
  | .arr elems => .ok (elems.any (fun j => match j with | .str s => s = needle | _ => false))
  | .str s => .ok (containsChars needle.data s.data)
  | _ => .error .typeError

/-- Python `x[key]` for a decoded JSON value `x`: dict lookup raising
`KeyError` when the key is missing, `TypeError` on any non-dict. -/
def pySubscript (x : Json) (key : String) : Except PyError Json :=
  match x with
  | .obj fields =>
    match fields.lookup key with
    | some v => .ok v
    | none => .error (.keyError key)
  | _ => .error .typeError

/-- Python `v == False` for a decoded JSON value: `True` for `False` and for
the number zero (Python bool/int cross-comparison). -/
def pyEqFalse : Json → Bool
  | .bool b => !b
  | .num n => n = 0
  | _ => false

/-! ### AssetMatcher: `RepositoryCollection.delete_assets` -/

/-- The response-decoding tail of `delete_assets` (collection.py, lines
178-188), applied to the already `json.loads`-decoded value of the `result`
field.  `raw` is the outer response, used as the payload of the protocol
errors raised at lines 179-180. -/
def delete_assets_decode (raw : List (String × Json)) (script_result : Json) :
    Except PyError Json :=
  if script_result.isNull then .error (.apiError (.obj raw))
  else
    match pyContains "assets" script_result with
    | .error e => .error e
    | .ok hasAssets =>
      if hasAssets = false then .error (.apiError (.obj raw))
      else
        match pyContains "success" script_result with
        | .error e => .error e
        | .ok hasSuccess =>
          match
            (if hasSuccess then
              match pySubscript script_result "success" with
              | .error e => .error e
              | .ok successVal =>
                if pyEqFalse successVal then
                  match pySubscript script_result "error" with
                  | .error e => .error e
                  | .ok errVal => .error (.apiError errVal)
                else .ok ()
            else .ok () : Except PyError Unit)
          with
          | .error e => .error e
          | .ok _ =>
            match pySubscript script_result "assets" with
            | .error e => .error e
            | .ok assetsVal =>
              if assetsVal.isNull then .ok (Json.arr []) else .ok assetsVal

/-- `RepositoryCollection.delete_assets` (collection.py, lines 150-188),
viewed from the service response onwards: `groovy_returned_json` is the outer
decoded JSON object returned by `scripts.run`.  The script reinstallation and
payload construction performed before the call are modelled separately by
`delete_assets_ops` and `delete_assets_payload`. -/
def delete_assets (groovy_returned_json : List (String × Json)) :
    Except PyError Json :=
  match groovy_returned_json.lookup "result" with
  | none => .error (.apiError (.obj groovy_returned_json))
  | some resultVal =>
    match resultVal with
    | .str s =>
      match json_loads s with
      | none => .error .jsonDecodeError
      | some script_result => delete_assets_decode groovy_returned_json script_result
    | _ => .error .typeError

/-! ### The wire request (collection.py lines 163-173, root_commands.py,
subcommand_repository.py) -/

def SCRIPT_NAME_DELETE_ASSETS : String := "nexus3-cli-repository-delete-assets"

/-- The JSON payload built at collection.py lines 167-172 and sent to the
server-side deletion script. -/
def delete_assets_payload (reponame assetRegex : String)
    (isWildcard dryRun : Bool) : List (String × Json) :=
  [("repoName", Json.str reponame),
   ("assetRegex", Json.str assetRegex),
   ("isWildcard", Json.bool isWildcard),
   ("dryRun", Json.bool dryRun)]

/-- The match-mode enumeration referenced by `root_commands.py` and
`tests/cli/test_delete.py` (`AssetMatchOptions.EXACT_NAME` / `WILDCARD` /
`REGEX`). -/
inductive AssetMatchOptions where
  | EXACT_NAME
  | WILDCARD
  | REGEX
deriving DecidableEq

/-- A deletion request as described by the spec data model:
repository name, pattern, match mode and dry-run flag. -/
structure DeletionRequest where
  repositoryName : String
  pattern : String
  mode : AssetMatchOptions
  dryRun : Bool
deriving DecidableEq

/-- Modelled from the spec: the enum-accepting variant of `delete_assets` is
not under src/ (root_commands.py and tests/cli/test_delete.py only reference
`AssetMatchOptions`); per spec section 4.3 step 2 the mode is put on the wire
as `isWildcard := (mode == Wildcard)`, so a request serializes to the payload
built at collection.py lines 167-172. -/
def serializeRequest (q : DeletionRequest) : List (String × Json) :=
  delete_assets_payload q.repositoryName q.pattern
    (q.mode = AssetMatchOptions.WILDCARD) q.dryRun

/-! ### Script operations and the remote service (for the dry-run claim)

`delete_assets` always force-reinstalls the deletion script and then runs it
(collection.py lines 163-173).  The Groovy script itself is not under src/,
so its effect on the service is modelled from the spec. -/

/-- One call made by the client against the script API of the service. -/
inductive ScriptOp where
  | deleteScript (name : String)
  | createIfMissing (name : String)
  | runScript (name : String) (payload : List (String × Json))

/-- The exact sequence of service calls made by one `delete_assets`
invocation (collection.py lines 163-173): delete the script, re-create it,
run it with the JSON payload. -/
def delete_assets_ops (reponame assetRegex : String)
    (isWildcard dryRun : Bool) : List ScriptOp :=
  [ScriptOp.deleteScript SCRIPT_NAME_DELETE_ASSETS,
   ScriptOp.createIfMissing SCRIPT_NAME_DELETE_ASSETS,
   ScriptOp.runScript SCRIPT_NAME_DELETE_ASSETS
     (delete_assets_payload reponame assetRegex isWildcard dryRun)]

/-- The observable server state: the set of installed script names and, per
repository name, the stored asset paths. -/
structure ServerState where
  scripts : List String
  repoAssets : String → List String

/-- Modelled from the spec: the server-side Groovy deletion script is not
under src/.  Per the spec (sections 4.3 and 6 and the glossary entry for dry
run) it reads `repoName`, `assetRegex`, `isWildcard` and `dryRun` from the
payload, computes the matching assets, and deletes them only when
`dryRun=false`; with `dryRun=true` it only reports.  `matchFn` abstracts the
server-side pattern matching (pattern, isWildcard, asset path). -/
def runDeletionScript (matchFn : String → Bool → String → Bool)
    (payload : List (String × Json)) (st : ServerState) : ServerState :=
  match payload.lookup "repoName", payload.lookup "assetRegex",
        payload.lookup "isWildcard", payload.lookup "dryRun" with
  | some (Json.str repoName), some (Json.str pat),
    some (Json.bool isW), some (Json.bool dryRun) =>
    if dryRun then st
    else
      { st with
        repoAssets := fun r =>
          if r = repoName then
            (st.repoAssets r).filter (fun a => !(matchFn pat isW a))
          else st.repoAssets r }
  | _, _, _, _ => st

/-- Effect of one client script call on the server. -/
def applyOp (matchFn : String → Bool → String → Bool) (st : ServerState) :
    ScriptOp → ServerState
  | .deleteScript n => { st with scripts := st.scripts.filter (fun m => m ≠ n) }
  | .createIfMissing n =>
    if st.scripts.contains n then st else { st with scripts := n :: st.scripts }
  | .runScript _ payload => runDeletionScript matchFn payload st

/-- Effect of a sequence of client script calls on the server. -/
def applyOps (matchFn : String → Bool → String → Bool) (st : ServerState)
    (ops : List ScriptOp) : ServerState :=
  ops.foldl (applyOp matchFn) st

/-! ### DeletionWorkflow: `_cmd_del_assets`

Two versions of the workflow are in the sources: `root_commands._cmd_del_assets`
(root_commands.py, lines 142-181) and `subcommand_repository._cmd_del_assets`
(subcommand_repository.py, lines 138-158).  Both are modelled as pure
functions over an abstract matcher `matcher : Bool -> Except PyError (List
String)` standing for `nexus_client.repositories.delete_assets` applied to the
fixed repository, pattern and mode, keyed on the dry-run flag. -/

namespace CliReturnCode

/-- Modelled from the spec: `nexuscli.cli.errors.CliReturnCode` is not under
src/ (only its uses are); per spec section 6 the success code is 0 and the
other outcomes have distinct non-zero codes, here given representative
values. -/
def SUCCESS : Nat := 0

/-- Modelled from the spec: distinct non-zero code for the no-matches /
no-files outcome (used by the upload and download commands). -/
def NO_FILES : Nat := 1

/-- Modelled from the spec: distinct non-zero code for API errors. -/
def API_ERROR : Nat := 2

/-- Modelled from the spec: distinct non-zero code for invalid arguments. -/
def INVALID_SUBCOMMAND : Nat := 10

end CliReturnCode

/-- The messages the workflow prints, tagged by which write statement in the
source produced them. -/
inductive CliMsg where
  | retrieving
  | foundZero
  | foundList (n : Nat)
  | deletedCount (n : Nat)
  | deletedList (n : Nat)
  | errorWhileAPI

/-- How a workflow run ends: a returned exit code, or a Python exception
propagating out of the function. -/
inductive CliOutcome where
  | exit (code : Nat)
  | raised (e : PyError)

/-- Observable behaviour of one workflow run: the dry-run flags of the
matcher calls in order, whether the confirmation prompt was reached, the
messages printed, and the outcome. -/
structure RunResult where
  calls : List Bool
  prompted : Bool
  msgs : List CliMsg
  outcome : CliOutcome

/-- `root_commands._cmd_del_assets` (root_commands.py, lines 142-181).  The
preview call is wrapped in `try/except NexusClientAPIError`; other exceptions
and any exception of the real-delete call propagate. -/
def cmdDelAssetsRoot (matcher : Bool → Except PyError (List String))
    (doForce : Bool) : RunResult :=
  if doForce = false then
    match matcher true with
    | .error (.apiError _) =>
      ⟨[true], false, [.retrieving, .errorWhileAPI],
        .exit CliReturnCode.API_ERROR⟩
    | .error e => ⟨[true], false, [.retrieving], .raised e⟩
    | .ok assets =>
      if assets.length = 0 then
        ⟨[true], false, [.retrieving, .foundZero], .exit CliReturnCode.SUCCESS⟩
      else
        match matcher false with
        | .error e =>
          ⟨[true, false], true, [.retrieving, .foundList assets.length],
            .raised e⟩
        | .ok assets2 =>
          if assets2.length = 0 then
            ⟨[true, false], true,
              [.retrieving, .foundList assets.length, .deletedCount 0],
              .exit CliReturnCode.SUCCESS⟩
          else
            ⟨[true, false], true,
              [.retrieving, .foundList assets.length,
               .deletedList assets2.length],
              .exit CliReturnCode.SUCCESS⟩
  else
    match matcher false with
    | .error e => ⟨[false], false, [], .raised e⟩
    | .ok assets2 =>
      if assets2.length = 0 then
        ⟨[false], false, [.deletedCount 0], .exit CliReturnCode.SUCCESS⟩
      else
        ⟨[false], false, [.deletedList assets2.length],
          .exit CliReturnCode.SUCCESS⟩

/-- `subcommand_repository._cmd_del_assets` (subcommand_repository.py, lines
138-158).  Same shape, but with no `try/except` around the preview call and
the zero-deleted message of the real run reuses the found-zero wording. -/
def cmdDelAssetsSub (matcher : Bool → Except PyError (List String))
    (doForce : Bool) : RunResult :=
  if doForce = false then
    match matcher true with
    | .error e => ⟨[true], false, [.retrieving], .raised e⟩
    | .ok assets =>
      if assets.length = 0 then
        ⟨[true], false, [.retrieving, .foundZero], .exit CliReturnCode.SUCCESS⟩
      else
        match matcher false with
        | .error e =>
          ⟨[true, false], true, [.retrieving, .foundList assets.length],
            .raised e⟩
        | .ok assets2 =>
          if assets2.length = 0 then
            ⟨[true, false], true,
              [.retrieving, .foundList assets.length, .foundZero],
              .exit CliReturnCode.SUCCESS⟩
          else
            ⟨[true, false], true,
              [.retrieving, .foundList assets.length,
               .deletedList assets2.length],
              .exit CliReturnCode.SUCCESS⟩
  else
    match matcher false with
    | .error e => ⟨[false], false, [], .raised e⟩
    | .ok assets2 =>
      if assets2.length = 0 then
        ⟨[false], false, [.foundZero], .exit CliReturnCode.SUCCESS⟩
      else
        ⟨[false], false, [.deletedList assets2.length],
          .exit CliReturnCode.SUCCESS⟩

/-! ### Concrete protocol inputs used by the claims -/

/-- The inner JSON string of the C1 scenario (also the response used by
`tests/cli/test_delete.py`, with a different asset path). -/
def c1_inner : String := "\x7b\"success\":true,\"error\":\"\",\"assets\":[\"/r/a\"]\x7d"

/-- Inner JSON with an explicit failure and `assets: null`. -/
def c3_inner : String := "\x7b\"success\":false,\"error\":\"x\",\"assets\":null\x7d"

/-- Outer response whose `result` decodes to `c3_inner`. -/
def c3_raw : List (String × Json) := [("result", Json.str c3_inner)]

/-- Inner JSON with an explicit failure and no `assets` key. -/
def c4_inner : String := "\x7b\"success\":false,\"error\":\"boom\"\x7d"

/-- Outer response whose `result` decodes to `c4_inner`. -/
def c4_raw : List (String × Json) := [("result", Json.str c4_inner)]

/-- Inner JSON with an explicit failure, an `assets` key and no `error` key. -/
def c10_inner : String := "\x7b\"success\":false,\"assets\":[]\x7d"

/-- Outer response whose `result` decodes to `c10_inner`. -/
def c10_raw : List (String × Json) := [("result", Json.str c10_inner)]

/-- C1: for every raw script response whose outer JSON maps `result` to the
inner JSON string from the claim, `delete_assets` returns exactly the
one-element sequence `["/r/a"]`. -/
theorem C1_delete_assets_single_asset (raw : List (String × Json))
    (h : raw.lookup "result" = some (Json.str c1_inner)) :
    delete_assets raw = Except.ok (Json.arr [Json.str "/r/a"]) := by
  unfold delete_assets
  rw [h]
  rfl

/-- Witness for C1 at the concrete response of the unit test. -/
theorem C1_delete_assets_single_asset_witness :
    delete_assets [("result", Json.str c1_inner)]
      = Except.ok (Json.arr [Json.str "/r/a"]) :=
  C1_delete_assets_single_asset [("result", Json.str c1_inner)] rfl

/-- C2: for every raw script response lacking the `result` key,
`delete_assets` raises the protocol error (a `NexusClientAPIError` carrying
the raw response, collection.py lines 176-177) and never returns a silent
empty list. -/
theorem C2_missing_result_raises (raw : List (String × Json))
    (h : raw.lookup "result" = none) :
    delete_assets raw = Except.error (PyError.apiError (Json.obj raw)) ∧
    ∀ l : Json, delete_assets raw ≠ Except.ok l := by
  have he : delete_assets raw = Except.error (PyError.apiError (Json.obj raw)) := by
    unfold delete_assets
    rw [h]
  refine ⟨he, fun l hl => ?_⟩
  rw [he] at hl
  exact Except.noConfusion hl

/-- Witness for C2 at the empty response. -/
theorem C2_missing_result_raises_witness :
    delete_assets [] = Except.error (PyError.apiError (Json.obj [])) ∧
    ∀ l : Json, delete_assets [] ≠ Except.ok l :=
  C2_missing_result_raises [] rfl

/-- Reduction lemma shared by the claims below: once the `result` value and
its decoded form are known, `delete_assets` is its decoding tail. -/
theorem delete_assets_eq_decode (raw : List (String × Json)) (s : String)
    (r : Json) (h1 : raw.lookup "result" = some (Json.str s))
    (h2 : json_loads s = some r) :
    delete_assets raw = delete_assets_decode raw r := by
  unfold delete_assets
  rw [h1]
  show (match json_loads s with
        | none => Except.error PyError.jsonDecodeError
        | some script_result => delete_assets_decode raw script_result)
      = delete_assets_decode raw r
  rw [h2]

/-- `Json.obj` is never Python `None`. -/
@[simp] theorem Json.isNull_obj (fields : List (String × Json)) :
    (Json.obj fields).isNull = false := rfl

/-- `Json.null` is Python `None`. -/
@[simp] theorem Json.isNull_null : Json.null.isNull = true := rfl

/-- C3 counterexample: an inner JSON with `assets: null` is NOT always
normalized to an empty returned sequence — with `success: false` the function
raises instead (the success check at collection.py line 182 precedes the
return), so the claim fails as stated at this input. -/
theorem C3_counterexample_success_false_null_assets :
    delete_assets c3_raw = Except.error (PyError.apiError (Json.str "x")) ∧
    delete_assets c3_raw ≠ Except.ok (Json.arr []) := by
  have he : delete_assets c3_raw = Except.error (PyError.apiError (Json.str "x")) := rfl
  refine ⟨he, fun hl => ?_⟩
  rw [he] at hl
  exact Except.noConfusion hl

/-- C3 (amended): the total absence of the `assets` key is a protocol error
for every decoded inner JSON object (regardless of the other fields); and
provided the success check passes (no `success` field equal to `False`), a
null `assets` value is normalized to the empty sequence and a non-null value
is returned as-is, with no dedup, sort or path normalization. -/
theorem C3_assets_key_required_and_normalized :
    (∀ (raw : List (String × Json)) (s : String) (fields : List (String × Json)),
      raw.lookup "result" = some (Json.str s) →
      json_loads s = some (Json.obj fields) →
      fields.lookup "assets" = none →
      delete_assets raw = Except.error (PyError.apiError (Json.obj raw))) ∧
    (∀ (raw : List (String × Json)) (s : String) (fields : List (String × Json)),
      raw.lookup "result" = some (Json.str s) →
      json_loads s = some (Json.obj fields) →
      fields.lookup "assets" = some Json.null →
      (∀ sv, fields.lookup "success" = some sv → pyEqFalse sv = false) →
      delete_assets raw = Except.ok (Json.arr [])) ∧
    (∀ (raw : List (String × Json)) (s : String) (fields : List (String × Json))
      (v : Json),
      raw.lookup "result" = some (Json.str s) →
      json_loads s = some (Json.obj fields) →
      fields.lookup "assets" = some v →
      v.isNull = false →
      (∀ sv, fields.lookup "success" = some sv → pyEqFalse sv = false) →
      delete_assets raw = Except.ok v) := by
  refine ⟨?_, ?_, ?_⟩
  · intro raw s fields h1 h2 h3
    rw [delete_assets_eq_decode raw s (Json.obj fields) h1 h2]
    simp [delete_assets_decode, pyContains, Json.isNull, h3]
  · intro raw s fields h1 h2 h3 hsucc
    rw [delete_assets_eq_decode raw s (Json.obj fields) h1 h2]
    cases hs : fields.lookup "success" with
    | none =>
      simp [delete_assets_decode, pyContains, pySubscript, Json.isNull, h3, hs]
    | some sv =>
      have hf := hsucc sv hs
      simp [delete_assets_decode, pyContains, pySubscript, Json.isNull, h3, hs, hf]
  · intro raw s fields v h1 h2 h3 hv hsucc
    rw [delete_assets_eq_decode raw s (Json.obj fields) h1 h2]
    cases hs : fields.lookup "success" with
    | none =>
      simp [delete_assets_decode, pyContains, pySubscript, h3, hs, hv]
    | some sv =>
      have hf := hsucc sv hs
      simp [delete_assets_decode, pyContains, pySubscript, h3, hs, hf, hv]

/-- Witness for the amended C3, at three concrete responses. -/
theorem C3_assets_key_required_and_normalized_witness :
    delete_assets [("result", Json.str "\x7b\"success\":true\x7d")]
      = Except.error (PyError.apiError
          (Json.obj [("result", Json.str "\x7b\"success\":true\x7d")])) ∧
    delete_assets [("result", Json.str "\x7b\"assets\":null\x7d")]
      = Except.ok (Json.arr []) ∧
    delete_assets [("result", Json.str "\x7b\"assets\":[\"/a\",\"/a\"]\x7d")]
      = Except.ok (Json.arr [Json.str "/a", Json.str "/a"]) := by
  refine ⟨?_, ?_, ?_⟩
  · exact C3_assets_key_required_and_normalized.1 _ _ [("success", Json.bool true)]
      rfl rfl rfl
  · exact C3_assets_key_required_and_normalized.2.1 _ _ [("assets", Json.null)]
      rfl rfl rfl (fun sv hsv => Option.noConfusion hsv)
  · exact C3_assets_key_required_and_normalized.2.2 _ _
      [("assets", Json.arr [Json.str "/a", Json.str "/a"])]
      (Json.arr [Json.str "/a", Json.str "/a"])
      rfl rfl rfl rfl (fun sv hsv => Option.noConfusion hsv)

/-- C4 counterexample: at the inner JSON `\x7b"success":false,"error":"boom"\x7d`
(and no `assets` key), `delete_assets` does NOT fail with an APIError carrying
"boom": the `assets` requirement at collection.py line 179 fires first and the
error carries the whole raw response instead. -/
theorem C4_counterexample_missing_assets :
    delete_assets c4_raw = Except.error (PyError.apiError (Json.obj c4_raw)) ∧
    delete_assets c4_raw ≠ Except.error (PyError.apiError (Json.str "boom")) := by
  have he : delete_assets c4_raw = Except.error (PyError.apiError (Json.obj c4_raw)) := rfl
  refine ⟨he, fun hl => ?_⟩
  rw [he] at hl
  injection hl with h1
  injection h1 with h2
  exact Json.noConfusion h2

/-- C4 (amended): provided the inner JSON object also carries the `assets`
key, an explicit `success: false` with error message `m` fails with an
APIError carrying exactly `m`; and when the `success` key is absent the
outcome defaults to success and the (null-normalized) assets are returned. -/
theorem C4_success_false_carries_message :
    (∀ (raw : List (String × Json)) (s m : String)
      (fields : List (String × Json)) (w : Json),
      raw.lookup "result" = some (Json.str s) →
      json_loads s = some (Json.obj fields) →
      fields.lookup "assets" = some w →
      fields.lookup "success" = some (Json.bool false) →
      fields.lookup "error" = some (Json.str m) →
      delete_assets raw = Except.error (PyError.apiError (Json.str m))) ∧
    (∀ (raw : List (String × Json)) (s : String)
      (fields : List (String × Json)) (w : Json),
      raw.lookup "result" = some (Json.str s) →
      json_loads s = some (Json.obj fields) →
      fields.lookup "assets" = some w →
      fields.lookup "success" = none →
      delete_assets raw = Except.ok (if w.isNull then Json.arr [] else w)) := by
  constructor
  · intro raw s m fields w h1 h2 ha hs he
    rw [delete_assets_eq_decode raw s (Json.obj fields) h1 h2]
    simp [delete_assets_decode, pyContains, pySubscript, pyEqFalse, ha, hs, he]
  · intro raw s fields w h1 h2 ha hs
    rw [delete_assets_eq_decode raw s (Json.obj fields) h1 h2]
    simp [delete_assets_decode, pyContains, pySubscript, ha, hs]
    split <;> rfl

/-- Witness for the amended C4: the spec scenario with the `assets` key
present, and a success-key-free response. -/
theorem C4_success_false_carries_message_witness :
    delete_assets
        [("result", Json.str "\x7b\"success\":false,\"error\":\"boom\",\"assets\":null\x7d")]
      = Except.error (PyError.apiError (Json.str "boom")) ∧
    delete_assets [("result", Json.str "\x7b\"assets\":[\"/b\"]\x7d")]
      = Except.ok (Json.arr [Json.str "/b"]) := by
  constructor
  · exact C4_success_false_carries_message.1 _ _ "boom"
      [("success", Json.bool false), ("error", Json.str "boom"),
       ("assets", Json.null)] Json.null rfl rfl rfl rfl rfl
  · exact C4_success_false_carries_message.2 _ _
      [("assets", Json.arr [Json.str "/b"])] (Json.arr [Json.str "/b"])
      rfl rfl rfl rfl

/-- C10: when the inner JSON object carries `assets`, has `success: false`
and lacks the `error` key, the unguarded lookup `script_result["error"]` at
collection.py line 183 raises a bare `KeyError`, which is neither the
documented APIError-with-message nor the protocol error (both of those are
`NexusClientAPIError`): the error branch is partial. -/
theorem C10_error_branch_partial (raw : List (String × Json)) (s : String)
    (fields : List (String × Json)) (w : Json)
    (h1 : raw.lookup "result" = some (Json.str s))
    (h2 : json_loads s = some (Json.obj fields))
    (ha : fields.lookup "assets" = some w)
    (hs : fields.lookup "success" = some (Json.bool false))
    (he : fields.lookup "error" = none) :
    delete_assets raw = Except.error (PyError.keyError "error") ∧
    ∀ p : Json, PyError.keyError "error" ≠ PyError.apiError p := by
  constructor
  · rw [delete_assets_eq_decode raw s (Json.obj fields) h1 h2]
    simp [delete_assets_decode, pyContains, pySubscript, pyEqFalse, ha, hs, he]
  · intro p hp
    exact PyError.noConfusion hp

/-- Witness for C10 at the concrete response `c10_raw`. -/
theorem C10_error_branch_partial_witness :
    delete_assets c10_raw = Except.error (PyError.keyError "error") ∧
    ∀ p : Json, PyError.keyError "error" ≠ PyError.apiError p :=
  C10_error_branch_partial c10_raw c10_inner
    [("success", Json.bool false), ("assets", Json.arr [])] (Json.arr [])
    rfl rfl rfl rfl rfl

/-- C5: in a non-forced run whose dry-run preview returns zero matched
assets, both workflow versions report the zero-match message and stop with
the success code: the only matcher call is the preview (`dryRun=true`), the
confirmation prompt is never reached, and no real-delete call is made. -/
theorem C5_zero_preview_stops (matcher : Bool → Except PyError (List String))
    (h : matcher true = Except.ok []) :
    cmdDelAssetsRoot matcher false
      = ⟨[true], false, [CliMsg.retrieving, CliMsg.foundZero],
          CliOutcome.exit CliReturnCode.SUCCESS⟩ ∧
    cmdDelAssetsSub matcher false
      = ⟨[true], false, [CliMsg.retrieving, CliMsg.foundZero],
          CliOutcome.exit CliReturnCode.SUCCESS⟩ := by
  constructor
  · unfold cmdDelAssetsRoot
    rw [h]
    rfl
  · unfold cmdDelAssetsSub
    rw [h]
    rfl

/-- Witness for C5 with a matcher that matches nothing. -/
theorem C5_zero_preview_stops_witness :
    cmdDelAssetsRoot (fun _ => Except.ok []) false
      = ⟨[true], false, [CliMsg.retrieving, CliMsg.foundZero],
          CliOutcome.exit CliReturnCode.SUCCESS⟩ ∧
    cmdDelAssetsSub (fun _ => Except.ok []) false
      = ⟨[true], false, [CliMsg.retrieving, CliMsg.foundZero],
          CliOutcome.exit CliReturnCode.SUCCESS⟩ :=
  C5_zero_preview_stops (fun _ => Except.ok []) rfl

/-- C6: in a forced run, both workflow versions invoke only the real-delete
call (`dryRun=false`): the preview is never made and no confirmation is
requested, whatever the matcher returns. -/
theorem C6_forced_skips_preview (matcher : Bool → Except PyError (List String)) :
    ((cmdDelAssetsRoot matcher true).calls = [false] ∧
     (cmdDelAssetsRoot matcher true).prompted = false) ∧
    ((cmdDelAssetsSub matcher true).calls = [false] ∧
     (cmdDelAssetsSub matcher true).prompted = false) := by
  cases hm : matcher false with
  | error e =>
    simp [cmdDelAssetsRoot, cmdDelAssetsSub, hm]
  | ok l =>
    by_cases hl : l.length = 0 <;>
      simp [cmdDelAssetsRoot, cmdDelAssetsSub, hm, hl]

/-- C7: running the full operation sequence of a `dryRun=true` invocation of
`delete_assets` against the modelled service leaves every repository's assets
unchanged, for any server state and any matching semantics (the script
reinstall touches only the script registry). -/
theorem C7_dry_run_preserves_assets (matchFn : String → Bool → String → Bool)
    (st : ServerState) (reponame assetRegex : String) (isWildcard : Bool) :
    (applyOps matchFn st
        (delete_assets_ops reponame assetRegex isWildcard true)).repoAssets
      = st.repoAssets := by
  have h3 : ∀ st2 : ServerState,
      applyOp matchFn st2 (ScriptOp.runScript SCRIPT_NAME_DELETE_ASSETS
        (delete_assets_payload reponame assetRegex isWildcard true)) = st2 := by
    intro st2
    rfl
  have h2 : ∀ st2 : ServerState,
      (applyOp matchFn st2
        (ScriptOp.createIfMissing SCRIPT_NAME_DELETE_ASSETS)).repoAssets
      = st2.repoAssets := by
    intro st2
    simp only [applyOp]
    split <;> rfl
  have h1 : (applyOp matchFn st
      (ScriptOp.deleteScript SCRIPT_NAME_DELETE_ASSETS)).repoAssets
      = st.repoAssets := rfl
  show (applyOp matchFn
      (applyOp matchFn
        (applyOp matchFn st (ScriptOp.deleteScript SCRIPT_NAME_DELETE_ASSETS))
        (ScriptOp.createIfMissing SCRIPT_NAME_DELETE_ASSETS))
      (ScriptOp.runScript SCRIPT_NAME_DELETE_ASSETS
        (delete_assets_payload reponame assetRegex isWildcard true))).repoAssets
    = st.repoAssets
  rw [h3, h2, h1]

/-- C8 counterexample: serialization to the documented wire payload is NOT
lossless for the mode field: an exact-name request and a regex request with
the same other fields produce the same payload, hence no decoder can invert
the serialization on all four fields. -/
theorem C8_counterexample_mode_collapses :
    serializeRequest ⟨"r", "p", AssetMatchOptions.EXACT_NAME, false⟩
      = serializeRequest ⟨"r", "p", AssetMatchOptions.REGEX, false⟩ ∧
    (⟨"r", "p", AssetMatchOptions.EXACT_NAME, false⟩ : DeletionRequest)
      ≠ ⟨"r", "p", AssetMatchOptions.REGEX, false⟩ ∧
    ¬ ∃ dec : List (String × Json) → DeletionRequest,
        ∀ q : DeletionRequest, dec (serializeRequest q) = q := by
  refine ⟨rfl, by decide, ?_⟩
  rintro ⟨d, hd⟩
  have h1 := hd ⟨"r", "p", AssetMatchOptions.EXACT_NAME, false⟩
  have h2 := hd ⟨"r", "p", AssetMatchOptions.REGEX, false⟩
  rw [show serializeRequest ⟨"r", "p", AssetMatchOptions.REGEX, false⟩
        = serializeRequest ⟨"r", "p", AssetMatchOptions.EXACT_NAME, false⟩
      from rfl] at h2
  exact absurd (h1.symm.trans h2) (by decide)

/-- C8 (amended): the wire payload is lossless exactly for the repository
name, the pattern, the dry-run flag and the wildcard bit of the mode: two
requests with the same payload agree on those, while `EXACT_NAME` and `REGEX`
are not distinguished on the wire. -/
theorem C8_round_trip_three_fields (q q2 : DeletionRequest)
    (h : serializeRequest q = serializeRequest q2) :
    q.repositoryName = q2.repositoryName ∧ q.pattern = q2.pattern ∧
    q.dryRun = q2.dryRun ∧
    ((q.mode = AssetMatchOptions.WILDCARD) ↔ (q2.mode = AssetMatchOptions.WILDCARD)) := by
  unfold serializeRequest delete_assets_payload at h
  simp only [List.cons.injEq, Prod.mk.injEq, Json.str.injEq, Json.bool.injEq,
    and_true, true_and] at h
  obtain ⟨h1, h2, h3, h4⟩ := h
  exact ⟨h1, h2, h4, by rw [decide_eq_decide] at h3; exact h3⟩

/-- Witness for the amended C8 at a concrete request. -/
theorem C8_round_trip_three_fields_witness :
    ("r" : String) = "r" ∧ ("p" : String) = "p" ∧ (true = true) ∧
    ((AssetMatchOptions.WILDCARD = AssetMatchOptions.WILDCARD)
      ↔ (AssetMatchOptions.WILDCARD = AssetMatchOptions.WILDCARD)) :=
  C8_round_trip_three_fields ⟨"r", "p", AssetMatchOptions.WILDCARD, true⟩
    ⟨"r", "p", AssetMatchOptions.WILDCARD, true⟩ rfl

/-- C9 counterexample: a non-forced deletion run whose preview matches zero
assets exits with the SUCCESS code 0, NOT with a code distinct from the
success code (root_commands.py line 164 returns SUCCESS). -/
theorem C9_counterexample_zero_match_exits_success :
    (cmdDelAssetsRoot (fun _ => Except.ok []) false).outcome
      = CliOutcome.exit CliReturnCode.SUCCESS ∧
    (cmdDelAssetsSub (fun _ => Except.ok []) false).outcome
      = CliOutcome.exit CliReturnCode.SUCCESS ∧
    CliReturnCode.SUCCESS = 0 :=
  ⟨rfl, rfl, rfl⟩

/-- C9 (amended): the success code is 0 and the no-files, API-error and
invalid-arguments codes are distinct non-zero codes, but the asset-deletion
workflow itself only ever exits with SUCCESS or API_ERROR: a zero-match or
zero-deleted run shares the success code 0, an API error in the preview exits
with API_ERROR, and other exceptions propagate without an exit code. -/
theorem C9_exit_codes (matcher : Bool → Except PyError (List String))
    (doForce : Bool) :
    CliReturnCode.SUCCESS = 0 ∧
    CliReturnCode.NO_FILES ≠ 0 ∧
    CliReturnCode.API_ERROR ≠ 0 ∧
    CliReturnCode.INVALID_SUBCOMMAND ≠ 0 ∧
    CliReturnCode.API_ERROR ≠ CliReturnCode.INVALID_SUBCOMMAND ∧
    ((cmdDelAssetsRoot matcher doForce).outcome = CliOutcome.exit CliReturnCode.SUCCESS ∨
     (cmdDelAssetsRoot matcher doForce).outcome = CliOutcome.exit CliReturnCode.API_ERROR ∨
     ∃ e : PyError, (cmdDelAssetsRoot matcher doForce).outcome = CliOutcome.raised e) ∧
    (matcher true = Except.ok [] →
      (cmdDelAssetsRoot matcher false).outcome = CliOutcome.exit CliReturnCode.SUCCESS) ∧
    (∀ p : Json, matcher true = Except.error (PyError.apiError p) →
      (cmdDelAssetsRoot matcher false).outcome = CliOutcome.exit CliReturnCode.API_ERROR) := by
  refine ⟨rfl, by decide, by decide, by decide, by decide, ?_, ?_, ?_⟩
  · cases doForce with
    | true =>
      cases hm : matcher false with
      | error e =>
        right; right
        exact ⟨e, by simp [cmdDelAssetsRoot, hm]⟩
      | ok l =>
        by_cases hl : l.length = 0
        · left
          simp [cmdDelAssetsRoot, hm, hl]
        · left
          simp [cmdDelAssetsRoot, hm, hl]
    | false =>
      cases hm : matcher true with
      | error e =>
        cases e with
        | apiError p =>
          right; left
          simp [cmdDelAssetsRoot, hm]
        | keyError k =>
          right; right
          exact ⟨PyError.keyError k, by simp [cmdDelAssetsRoot, hm]⟩
        | typeError =>
          right; right
          exact ⟨PyError.typeError, by simp [cmdDelAssetsRoot, hm]⟩
        | jsonDecodeError =>
          right; right
          exact ⟨PyError.jsonDecodeError, by simp [cmdDelAssetsRoot, hm]⟩
      | ok l =>
        by_cases hl : l.length = 0
        · left
          simp [cmdDelAssetsRoot, hm, hl]
        · cases hm2 : matcher false with
          | error e =>
            right; right
            exact ⟨e, by simp [cmdDelAssetsRoot, hm, hl, hm2]⟩
          | ok l2 =>
            by_cases hl2 : l2.length = 0
            · left
              simp [cmdDelAssetsRoot, hm, hl, hm2, hl2]
            · left
              simp [cmdDelAssetsRoot, hm, hl, hm2, hl2]
  · intro h
    simp [cmdDelAssetsRoot, h]
  · intro p hp
    simp [cmdDelAssetsRoot, hp]

/-- Witness for the amended C9 at a matcher with zero matches. -/
theorem C9_exit_codes_witness :
    (cmdDelAssetsRoot (fun _ => Except.ok ([] : List String)) false).outcome
      = CliOutcome.exit CliReturnCode.SUCCESS :=
  (C9_exit_codes (fun _ => Except.ok []) false).2.2.2.2.2.2.1 rfl

/-- Witness for C6 at a concrete matcher. -/
theorem C6_forced_skips_preview_witness :
    ((cmdDelAssetsRoot (fun _ => Except.ok ["/a"]) true).calls = [false] ∧
     (cmdDelAssetsRoot (fun _ => Except.ok ["/a"]) true).prompted = false) ∧
    ((cmdDelAssetsSub (fun _ => Except.ok ["/a"]) true).calls = [false] ∧
     (cmdDelAssetsSub (fun _ => Except.ok ["/a"]) true).prompted = false) :=
  C6_forced_skips_preview (fun _ => Except.ok ["/a"])

/-- Witness for C7 at a concrete state and request. -/
theorem C7_dry_run_preserves_assets_witness :
    (applyOps (fun _ _ _ => true) ⟨[], fun _ => ["/x"]⟩
        (delete_assets_ops "repo" "pat" false true)).repoAssets
      = (⟨[], fun _ => ["/x"]⟩ : ServerState).repoAssets :=
  C7_dry_run_preserves_assets (fun _ _ _ => true) ⟨[], fun _ => ["/x"]⟩
    "repo" "pat" false
